import Mathlib

/-!
Shallow embedding of the role-management core of the repository
(`app/services/role_service.py`, `app/services/event_service.py`,
`app/models/role_change_history.py`, `app/routers/role_routes.py`).

The database session is modelled as an explicit `Store` value holding the
`users` table (a list, primary-key `id`) and the `role_change_history`
table (a list in insertion order).  UUIDs are modelled as `Nat` identifiers
and timestamps as a `Nat` clock carried by the store (`now`), assigned by
the authority at commit time like the column default `func.now()`.
Fallible effects (transaction commit, event publication) are driven by an
explicit `DbEnv` of boolean outcomes, and a rolled-back transaction leaves
the store unchanged, as `session.rollback()` does.
-/

namespace UserMgmt

/-- Modelled from the spec: the `UserRole` enum of `app/models/user_model.py`
is not under `src/`; spec sections 3 and 8 fix its members as the four
canonical names `ANONYMOUS`, `AUTHENTICATED`, `MANAGER`, `ADMIN`, in
declaration order. -/
inductive UserRole
  | ANONYMOUS
  | AUTHENTICATED
  | MANAGER
  | ADMIN
deriving DecidableEq, Repr, Fintype

/-- The canonical name of a role (`role.name` on the Python enum member). -/
def UserRole.name : UserRole → String
  | .ANONYMOUS => "ANONYMOUS"
  | .AUTHENTICATED => "AUTHENTICATED"
  | .MANAGER => "MANAGER"
  | .ADMIN => "ADMIN"

/-- Python `UserRole[s]`: case-sensitive lookup of an enum member by its
exact name, raising `KeyError` (here `none`) on everything else. -/
def UserRole.fromName? (s : String) : Option UserRole :=
  if s = "ANONYMOUS" then some UserRole.ANONYMOUS
  else if s = "AUTHENTICATED" then some UserRole.AUTHENTICATED
  else if s = "MANAGER" then some UserRole.MANAGER
  else if s = "ADMIN" then some UserRole.ADMIN
  else none

/-- The dynamically-typed argument of `RoleService._parse_role`: a string,
an already-typed `UserRole` member, or a value of any other type. -/
inductive RoleValue
  | str (s : String)
  | role (r : UserRole)
  | other
deriving DecidableEq, Repr

/-- How a `RoleValue` renders inside a Python f-string such as
`f"Invalid role: {new_role}"`. -/
def RoleValue.display : RoleValue → String
  | .str s => s
  | .role r => "UserRole." ++ r.name
  | .other => "<value>"

/-- A row of the `users` table, as far as the role core reads it:
primary key, e-mail identity, current role. -/
structure User where
  id : Nat
  email : String
  role : UserRole
deriving DecidableEq, Repr

/-- A row of the `role_change_history` table
(`app/models/role_change_history.py`): previous/new role stored as their
canonical names, server-assigned timestamp, optional reason. -/
structure RoleChangeHistory where
  id : Nat
  user_id : Nat
  changed_by_id : Nat
  previous_role : String
  new_role : String
  changed_at : Nat
  reason : Option String
deriving DecidableEq, Repr

/-- The database state visible to the role service: the two tables, a
generator for fresh record identifiers, and the commit-time clock. -/
structure Store where
  users : List User
  history : List RoleChangeHistory
  nextId : Nat
  now : Nat
deriving DecidableEq, Repr

/-- `session.get(User, uid)`: primary-key lookup in the users table. -/
def Store.getUser (s : Store) (uid : Nat) : Option User :=
  s.users.find? (fun u => u.id == uid)

/-- The live count of users currently holding `ADMIN`, as computed by the
`select(func.count()).select_from(User).filter(User.role == UserRole.ADMIN)`
query in `validate_role_change`. -/
def Store.adminCount (s : Store) : Nat :=
  s.users.countP (fun u => u.role == UserRole.ADMIN)

/-- Well-formedness of the store: `users.id` is a primary key, so no two
rows share an identifier. -/
def Store.WF (s : Store) : Prop :=
  s.users.Pairwise (fun a b => a.id ≠ b.id)

instance (s : Store) : Decidable s.WF :=
  inferInstanceAs (Decidable (s.users.Pairwise (fun a b : User => a.id ≠ b.id)))

/-- `RoleService._parse_role`: strings go through the case-sensitive enum
lookup `UserRole[value]`, an enum member passes through unchanged, any
other type yields `None`. -/
def parse_role : RoleValue → Option UserRole
  | .str s => UserRole.fromName? s
  | .role r => some r
  | .other => none

/-- `RoleService.validate_role_change`: the pure read-only validation.
It loads subject and actor, then checks, in source order: subject exists,
actor exists, the requested role parses, the subject does not already hold
it, the actor is an `ADMIN`, and the change would not demote the last
administrator; the first failing check returns `(False, reason)`. -/
def validate_role_change (s : Store) (user_id : Nat) (new_role : RoleValue)
    (changed_by_id : Nat) : Bool × String :=
  match s.getUser user_id, s.getUser changed_by_id with
  | none, _ => (false, "User with ID " ++ toString user_id ++ " not found")
  | some _, none => (false, "User with ID " ++ toString changed_by_id ++ " not found")
  | some user, some changed_by =>
    match parse_role new_role with
    | none => (false, "Invalid role: " ++ new_role.display)
    | some new_role_enum =>
      if user.role = new_role_enum then
        (false, "User already has the role " ++ new_role.display)
      else if changed_by.role ≠ UserRole.ADMIN then
        (false, "Only administrators can change user roles")
      else if user.role = UserRole.ADMIN ∧ new_role_enum ≠ UserRole.ADMIN then
        if s.adminCount ≤ 1 then
          (false, "Cannot change the role of the last administrator")
        else
          (true, "Role change is valid")
      else
        (true, "Role change is valid")

/-- The payload dictionary returned by a successful
`RoleService.change_user_role` (its `role_change_data`). -/
structure RoleChangeData where
  user_id : Nat
  previous_role : String
  new_role : String
  changed_at : Nat
  changed_by : String
  reason : Option String
deriving DecidableEq, Repr

/-- The three shapes `RoleService.change_user_role` can hand back to its
caller: `None` after a rolled-back transaction (`failure`), an
`{"error": ..., "status": ...}` dictionary, or the success payload. -/
inductive ChangeOutcome
  | failure
  | error (error_msg : String) (status : String)
  | success (data : RoleChangeData)
deriving DecidableEq, Repr

/-- The `status` field of an error-dictionary outcome, if any. -/
def ChangeOutcome.statusOf : ChangeOutcome → Option String
  | .error _ st => some st
  | _ => none

/-- Outcomes of the two fallible external effects of one
`change_user_role` call: whether `session.commit()` succeeds and whether
`EventService.publish` returns without raising. -/
structure DbEnv where
  commitOk : Bool
  notifyOk : Bool
deriving DecidableEq, Repr

/-- `EventService.publish` as a fallible effect: the concrete
implementation only logs, but `change_user_role` guards the call so that a
raising sink is also tolerated; `ok = false` models a raised exception. -/
def EventService.publish (ok : Bool) : Except String Unit :=
  if ok then Except.ok () else Except.error "publish failed"

/-- `RoleService.change_user_role`: load subject and actor, parse the
requested role (each failure returning its structured error dictionary
with the session untouched), then in one transaction append the audit
record and update the subject's role; a failing commit rolls everything
back and returns `None`, and after a successful commit the event
publication is attempted but its failure is swallowed. -/
def change_user_role (env : DbEnv) (s : Store) (user_id : Nat)
    (new_role : RoleValue) (changed_by_id : Nat) (reason : Option String) :
    ChangeOutcome × Store :=
  match s.getUser user_id with
  | none =>
    (ChangeOutcome.error ("User with ID " ++ toString user_id ++ " not found")
      "not_found", s)
  | some user =>
    match s.getUser changed_by_id with
    | none =>
      (ChangeOutcome.error
        ("User with ID " ++ toString changed_by_id ++ " not found")
        "not_found", s)
    | some changed_by =>
      match parse_role new_role with
      | none =>
        (ChangeOutcome.error ("Invalid role: " ++ new_role.display)
          "invalid_role", s)
      | some new_role_enum =>
        let previous_role := user.role
        let role_change : RoleChangeHistory :=
          { id := s.nextId
            user_id := user_id
            changed_by_id := changed_by_id
            previous_role := previous_role.name
            new_role := new_role_enum.name
            changed_at := s.now
            reason := reason }
        if env.commitOk then
          let s' : Store :=
            { s with
              users := s.users.map (fun u =>
                if u.id == user_id then { u with role := new_role_enum } else u)
              history := s.history ++ [role_change]
              nextId := s.nextId + 1 }
          let data : RoleChangeData :=
            { user_id := user_id
              previous_role := previous_role.name
              new_role := new_role_enum.name
              changed_at := role_change.changed_at
              changed_by := changed_by.email
              reason := reason }
          match EventService.publish env.notifyOk with
          | Except.ok _ => (ChangeOutcome.success data, s')
          | Except.error _ => (ChangeOutcome.success data, s')
        else
          (ChangeOutcome.failure, s)

/-- The filtered record set of a history query: restricted to one subject
when a `user_id` is supplied, the whole table otherwise. -/
def filteredHistory (s : Store) (user_id : Option Nat) : List RoleChangeHistory :=
  match user_id with
  | some uid => s.history.filter (fun r => r.user_id == uid)
  | none => s.history

/-- The dictionary `RoleService.get_role_change_history` returns. -/
structure HistoryPage where
  records : List RoleChangeHistory
  total : Nat
  limit : Nat
  skip : Nat
deriving DecidableEq, Repr

/-- What the SQL guarantees about the sequence a
`order_by(RoleChangeHistory.changed_at.desc())` query returns for a
filtered row set `l`: some permutation of `l` that is sorted by
`changed_at` descending.  The query has no secondary sort key (record ids
are random `uuid4` values), so the order among rows with equal timestamps
is chosen by the store, and nothing ties the choice across queries. -/
def IsOrderByChangedAtDesc (l sorted : List RoleChangeHistory) : Prop :=
  sorted.Perm l ∧ sorted.Pairwise (fun a b => b.changed_at ≤ a.changed_at)

instance (l sorted : List RoleChangeHistory) :
    Decidable (IsOrderByChangedAtDesc l sorted) :=
  inferInstanceAs (Decidable (sorted.Perm l ∧
    sorted.Pairwise (fun a b : RoleChangeHistory => b.changed_at ≤ a.changed_at)))

/-- `RoleService.get_role_change_history`: filter by subject when given,
order by `changed_at` descending, apply `offset`/`limit` after ordering,
and run a separate count query over the same filter; any storage exception
is caught and yields the empty page with total `0`.  The store's choice of
row order for the unkeyed `ORDER BY` is threaded in as the explicit
parameter `dbSort`; a database-faithful choice is one satisfying
`IsOrderByChangedAtDesc` on the filtered set, which the theorems assume
rather than fix. -/
def get_role_change_history (storageFail : Bool)
    (dbSort : List RoleChangeHistory → List RoleChangeHistory) (s : Store)
    (user_id : Option Nat) (skip : Nat) (limit : Nat) : HistoryPage :=
  if storageFail then
    { records := [], total := 0, limit := limit, skip := skip }
  else
    let filtered := filteredHistory s user_id
    let ordered := dbSort filtered
    { records := (ordered.drop skip).take limit
      total := filtered.length
      limit := limit
      skip := skip }

/-- `RoleService.get_available_roles`: the names of all enum members in
declaration order. -/
def get_available_roles : List String :=
  [UserRole.ANONYMOUS, UserRole.AUTHENTICATED, UserRole.MANAGER,
    UserRole.ADMIN].map UserRole.name

/-- The `PUT /roles/users/{user_id}` route body
(`app/routers/role_routes.py`): validate first, and only when validation
succeeds run `change_user_role`; a failed validation raises a 400 and
leaves the store untouched.  Only the resulting store matters for the
reachable-state invariant. -/
def route_change_user_role (env : DbEnv) (s : Store) (user_id : Nat)
    (new_role : RoleValue) (actor_id : Nat) (reason : Option String) : Store :=
  let v := validate_role_change s user_id new_role actor_id
  if v.1 then (change_user_role env s user_id new_role actor_id reason).2 else s

/-- One request to the role-change route: its effect outcomes and
arguments. -/
structure RoleChangeOp where
  env : DbEnv
  user_id : Nat
  new_role : RoleValue
  actor_id : Nat
  reason : Option String
deriving Repr

/-- Run a sequence of role-change requests through the route pathway. -/
def runOps (s : Store) : List RoleChangeOp → Store
  | [] => s
  | op :: ops =>
    runOps (route_change_user_role op.env s op.user_id op.new_role op.actor_id
      op.reason) ops

/-- One validation rule of the specification: a passing guard and the
reason reported when the guard fails. -/
def firstFail : List (Bool × String) → Bool × String
  | [] => (true, "Role change is valid")
  | (ok, msg) :: rest => if ok then firstFail rest else (false, msg)

/-- The six validation rules in the order the specification states them:
subject exists, actor exists, requested role parses, subject's current
role differs from the requested one, actor holds `ADMIN`, and the
last-admin count check.  Guards of later rules default to `true` on
states where an earlier rule already fails. -/
def ruleChecks (s : Store) (user_id : Nat) (new_role : RoleValue)
    (changed_by_id : Nat) : List (Bool × String) :=
  [((s.getUser user_id).isSome,
      "User with ID " ++ toString user_id ++ " not found"),
   ((s.getUser changed_by_id).isSome,
      "User with ID " ++ toString changed_by_id ++ " not found"),
   ((parse_role new_role).isSome, "Invalid role: " ++ new_role.display),
   ((match s.getUser user_id, parse_role new_role with
     | some su, some r => !(su.role == r)
     | _, _ => true),
      "User already has the role " ++ new_role.display),
   ((match s.getUser changed_by_id with
     | some ac => ac.role == UserRole.ADMIN
     | none => true),
      "Only administrators can change user roles"),
   ((match s.getUser user_id, parse_role new_role with
     | some su, some r =>
       !(su.role == UserRole.ADMIN && !(r == UserRole.ADMIN) &&
         decide (s.adminCount ≤ 1))
     | _, _ => true),
      "Cannot change the role of the last administrator")]

/-- Claim C2: `validate_role_change` applies the six rules of the
specification sequentially, short-circuiting at the first failure in the
stated order, returns exactly `(true, "Role change is valid")` when every
rule passes, and — being a pure function of the store — mutates nothing. -/
theorem validate_role_change_sequential (s : Store) (uid : Nat) (rv : RoleValue) (aid : Nat) :
    validate_role_change s uid rv aid = firstFail (ruleChecks s uid rv aid) := by
  rcases hu : s.getUser uid with _ | su <;>
  rcases ha : s.getUser aid with _ | ac <;>
  rcases hp : parse_role rv with _ | r <;>
  simp [validate_role_change, ruleChecks, firstFail, hu, ha, hp]
  by_cases h1 : su.role = r
  · simp [h1]
  · simp [h1]
    by_cases h2 : ac.role = UserRole.ADMIN
    · simp [h2]
      by_cases h3 : su.role = UserRole.ADMIN
      · simp [h3]
        by_cases h4 : r = UserRole.ADMIN
        · simp [h4]
        · simp [h4]
          by_cases h5 : s.adminCount ≤ 1
          · simp [h5, Nat.not_lt.mpr h5]
          · simp [h5, Nat.not_le.mp h5]
      · simp [h3]
    · simp [h2]

/-- Claim C8: on an unexpected storage failure the history query never
propagates the error; it returns the empty record list with total `0` for
every filter, offset and limit. -/
theorem history_storage_failure_empty
    (dbSort : List RoleChangeHistory → List RoleChangeHistory) (s : Store)
    (uid? : Option Nat) (skip limit : Nat) :
    get_role_change_history true dbSort s uid? skip limit =
      { records := [], total := 0, limit := limit, skip := skip } := rfl

/-- Claim C9: `_parse_role` maps exactly the canonical role names to their
roles (case-sensitively, with no normalization), passes an already-typed
role through, and yields `None` on every other string and every value of
another type. -/
theorem parse_role_spec :
    (∀ r : UserRole, parse_role (RoleValue.str r.name) = some r) ∧
    (∀ s : String, (∀ r : UserRole, s ≠ r.name) → parse_role (RoleValue.str s) = none) ∧
    (∀ r : UserRole, parse_role (RoleValue.role r) = some r) ∧
    parse_role RoleValue.other = none := by
  refine ⟨?_, ?_, fun r => rfl, rfl⟩
  · intro r; cases r <;> rfl
  · intro s h
    simp only [parse_role, UserRole.fromName?]
    have h1 := h UserRole.ANONYMOUS
    have h2 := h UserRole.AUTHENTICATED
    have h3 := h UserRole.MANAGER
    have h4 := h UserRole.ADMIN
    simp [UserRole.name] at h1 h2 h3 h4
    simp [h1, h2, h3, h4]

/-- Witness for the hypothesis of `parse_role_spec`: the lower-case string
"admin" matches no canonical name and is rejected. -/
theorem parse_role_spec_witness :
    parse_role (RoleValue.str "admin") = none :=
  parse_role_spec.2.1 "admin" (by decide)

/-- Claim C10: the outcome and the resulting store of `change_user_role`
are identical whether the post-commit event publication succeeds or
raises — a notification failure never alters the caller-visible result and
never rolls the change back. -/
theorem notify_failure_invisible (s : Store) (uid : Nat) (rv : RoleValue)
    (aid : Nat) (reason : Option String) (co n1 n2 : Bool) :
    change_user_role { commitOk := co, notifyOk := n1 } s uid rv aid reason =
      change_user_role { commitOk := co, notifyOk := n2 } s uid rv aid reason := by
  unfold change_user_role
  rcases s.getUser uid with _ | u
  · rfl
  · rcases s.getUser aid with _ | cb
    · rfl
    · rcases parse_role rv with _ | r
      · rfl
      · simp only []
        cases co <;> cases n1 <;> cases n2 <;> rfl

/-- The guarded event publication returns control unchanged whether or not
the sink raises. -/
theorem publish_swallowed {α : Type} (b : Bool) (a : α) :
    (match EventService.publish b with
     | Except.ok _ => a
     | Except.error _ => a) = a := by
  cases b <;> rfl

/-- Primary-key lookup after updating the role of the row with that key. -/
theorem find?_update_role (l : List User) (uid : Nat) (r : UserRole) (su : User)
    (h : l.find? (fun u => u.id == uid) = some su) :
    (l.map (fun u => if u.id == uid then { u with role := r } else u)).find?
      (fun u => u.id == uid) = some { su with role := r } := by
  induction l with
  | nil => simp at h
  | cons a l ih =>
    by_cases hid : (a.id == uid) = true
    · simp only [List.find?_cons, hid] at h
      cases h
      simp only [List.map_cons, hid, if_true, List.find?_cons]
    · rw [Bool.not_eq_true] at hid
      simp only [List.find?_cons, hid] at h
      simp only [List.map_cons, hid, Bool.false_eq_true, if_false, List.find?_cons]
      exact ih h

/-- Claim C3: when `change_user_role` succeeds, exactly one audit record is
appended, carrying the subject's pre-state role and the requested role, and
the subject's stored role afterwards is the requested role; when it fails
with the opaque operation failure, the store is exactly the pre-state. -/
theorem change_user_role_atomic (env : DbEnv) (s : Store) (uid : Nat)
    (rv : RoleValue) (aid : Nat) (reason : Option String) :
    (∀ d, (change_user_role env s uid rv aid reason).1 = ChangeOutcome.success d →
      ∃ su r, s.getUser uid = some su ∧ parse_role rv = some r ∧
        (change_user_role env s uid rv aid reason).2.history =
          s.history ++ [{ id := s.nextId, user_id := uid, changed_by_id := aid,
                          previous_role := su.role.name, new_role := r.name,
                          changed_at := s.now, reason := reason }] ∧
        Option.map User.role ((change_user_role env s uid rv aid reason).2.getUser uid) =
          some r ∧
        d.previous_role = su.role.name ∧ d.new_role = r.name ∧ d.user_id = uid) ∧
    ((change_user_role env s uid rv aid reason).1 = ChangeOutcome.failure →
      (change_user_role env s uid rv aid reason).2 = s) := by
  rcases hu : s.getUser uid with _ | su
  · exact ⟨fun d hd => by simp [change_user_role, hu] at hd,
      fun hf => by simp [change_user_role, hu] at hf⟩
  rcases ha : s.getUser aid with _ | ac
  · exact ⟨fun d hd => by simp [change_user_role, hu, ha] at hd,
      fun hf => by simp [change_user_role, hu, ha] at hf⟩
  rcases hp : parse_role rv with _ | r
  · exact ⟨fun d hd => by simp [change_user_role, hu, ha, hp] at hd,
      fun hf => by simp [change_user_role, hu, ha, hp] at hf⟩
  cases hc : env.commitOk
  · exact ⟨fun d hd => by simp [change_user_role, hu, ha, hp, hc] at hd,
      fun _ => by simp [change_user_role, hu, ha, hp, hc]⟩
  have hkey : change_user_role env s uid rv aid reason =
      (ChangeOutcome.success
        { user_id := uid, previous_role := su.role.name, new_role := r.name,
          changed_at := s.now, changed_by := ac.email, reason := reason },
       { s with
          users := s.users.map (fun u =>
            if u.id == uid then { u with role := r } else u),
          history := s.history ++
            [{ id := s.nextId, user_id := uid, changed_by_id := aid,
               previous_role := su.role.name, new_role := r.name,
               changed_at := s.now, reason := reason }],
          nextId := s.nextId + 1 }) := by
    unfold change_user_role
    rw [hu, ha, hp]
    simp only [hc, if_true, publish_swallowed]
  rw [hkey]
  constructor
  · intro d hd
    simp only [] at hd
    cases hd
    refine ⟨su, r, rfl, rfl, rfl, ?_, rfl, rfl, rfl⟩
    simp only [Store.getUser]
    rw [find?_update_role s.users uid r su hu]
    rfl
  · intro hf
    simp at hf

/-- The id of a row is untouched by the role update. -/
theorem update_id_eq (uid : Nat) (r : UserRole) (u : User) :
    (if u.id == uid then { u with role := r } else u).id = u.id := by
  by_cases h : (u.id == uid) = true <;> simp [h]

/-- When no row carries the target key, the role update is the identity. -/
theorem map_update_id (l : List User) (uid : Nat) (r : UserRole)
    (h : ∀ b ∈ l, b.id ≠ uid) :
    l.map (fun u => if u.id == uid then { u with role := r } else u) = l := by
  have h2 : ∀ b ∈ l, (if b.id == uid then { b with role := r } else b) = b := by
    intro b hb
    have hbne : (b.id == uid) = false := by simpa using h b hb
    simp [hbne]
  rw [List.map_congr_left h2]
  simp

/-- A role update to one primary key leaves every other row unchanged, so
under the primary-key discipline it removes at most one administrator. -/
theorem countP_admin_map_ge (l : List User) (uid : Nat) (r : UserRole)
    (hpw : l.Pairwise (fun a b => a.id ≠ b.id)) :
    l.countP (fun u => u.role == UserRole.ADMIN) ≤
      (l.map (fun u => if u.id == uid then { u with role := r } else u)).countP
        (fun u => u.role == UserRole.ADMIN) + 1 := by
  induction l with
  | nil => simp
  | cons a l ih =>
    rcases List.pairwise_cons.mp hpw with ⟨hhead, htail⟩
    simp only [List.map_cons]
    by_cases hid : (a.id == uid) = true
    · rw [if_pos hid]
      rw [map_update_id l uid r (fun b hb => by
        have h1 := hhead b hb
        have h2 : a.id = uid := by simpa using hid
        omega)]
      rw [List.countP_cons, List.countP_cons]
      by_cases h1 : (a.role == UserRole.ADMIN) = true <;>
        by_cases h2 : (({ a with role := r } : User).role == UserRole.ADMIN) = true <;>
        simp [h1, h2] <;> omega
    · rw [if_neg hid]
      rw [List.countP_cons, List.countP_cons]
      have h3 := ih htail
      omega

/-- A role update that touches no administrator row and installs a
non-admin role preserves the administrator count. -/
theorem countP_admin_map_eq (l : List User) (uid : Nat) (r : UserRole) (su : User)
    (hpw : l.Pairwise (fun a b => a.id ≠ b.id))
    (hfind : l.find? (fun u => u.id == uid) = some su)
    (hsu : (su.role == UserRole.ADMIN) = false)
    (hr : (r == UserRole.ADMIN) = false) :
    (l.map (fun u => if u.id == uid then { u with role := r } else u)).countP
      (fun u => u.role == UserRole.ADMIN) =
      l.countP (fun u => u.role == UserRole.ADMIN) := by
  induction l with
  | nil => simp at hfind
  | cons a l ih =>
    rcases List.pairwise_cons.mp hpw with ⟨hhead, htail⟩
    simp only [List.map_cons]
    by_cases hid : (a.id == uid) = true
    · have haid : a.id = uid := by simpa using hid
      simp only [List.find?_cons, hid] at hfind
      cases hfind
      rw [if_pos hid]
      rw [map_update_id l uid r (fun b hb => by
        have h1 := hhead b hb
        omega)]
      rw [List.countP_cons, List.countP_cons]
      simp [hsu, hr]
    · rw [Bool.not_eq_true] at hid
      simp only [List.find?_cons, hid] at hfind
      rw [if_neg (by simp [hid])]
      rw [List.countP_cons, List.countP_cons]
      have h3 := ih htail hfind
      omega

/-- Installing the `ADMIN` role on an existing row guarantees at least one
administrator afterwards. -/
theorem countP_admin_map_pos (l : List User) (uid : Nat) (su : User)
    (hfind : l.find? (fun u => u.id == uid) = some su) :
    0 < (l.map (fun u =>
        if u.id == uid then { u with role := UserRole.ADMIN } else u)).countP
      (fun u => u.role == UserRole.ADMIN) := by
  rw [List.countP_pos_iff]
  refine ⟨(fun u => if u.id == uid then { u with role := UserRole.ADMIN } else u) su,
    List.mem_map_of_mem _ (List.mem_of_find?_eq_some hfind), ?_⟩
  have hid : (su.id == uid) = true := by
    have h1 := List.find?_some hfind
    simpa using h1
  simp [hid]

/-- What a passed validation guarantees about the store: both users exist,
the role parses, the change is not a no-op, the actor is an administrator,
and a demotion of an administrator leaves at least one other. -/
theorem validate_true_spec (s : Store) (uid : Nat) (rv : RoleValue) (aid : Nat)
    (h : (validate_role_change s uid rv aid).1 = true) :
    ∃ su ac r, s.getUser uid = some su ∧ s.getUser aid = some ac ∧
      parse_role rv = some r ∧ su.role ≠ r ∧ ac.role = UserRole.ADMIN ∧
      (su.role = UserRole.ADMIN → r ≠ UserRole.ADMIN → 2 ≤ s.adminCount) := by
  unfold validate_role_change at h
  rcases hu : s.getUser uid with _ | su <;> simp only [hu] at h
  · simp at h
  rcases ha : s.getUser aid with _ | ac <;> simp only [ha] at h
  · simp at h
  rcases hp : parse_role rv with _ | r <;> simp only [hp] at h
  · simp at h
  by_cases h1 : su.role = r
  · simp [h1] at h
  by_cases h2 : ac.role = UserRole.ADMIN
  · rw [if_neg h1, if_neg (not_not_intro h2)] at h
    refine ⟨su, ac, r, rfl, rfl, rfl, h1, h2, ?_⟩
    intro hsA hrA
    rw [if_pos ⟨hsA, hrA⟩] at h
    by_cases h5 : s.adminCount ≤ 1
    · rw [if_pos h5] at h
      simp at h
    · omega
  · rw [if_neg h1, if_pos h2] at h
    simp at h

/-- One request through the route pathway preserves both the primary-key
discipline and the presence of at least one administrator. -/
theorem route_step_admin (env : DbEnv) (s : Store) (uid : Nat) (rv : RoleValue)
    (aid : Nat) (reason : Option String) (hwf : s.WF) (h : 1 ≤ s.adminCount) :
    1 ≤ (route_change_user_role env s uid rv aid reason).adminCount ∧
      (route_change_user_role env s uid rv aid reason).WF := by
  unfold route_change_user_role
  cases hv : (validate_role_change s uid rv aid).1
  · simpa [hv] using ⟨h, hwf⟩
  · rcases validate_true_spec s uid rv aid hv with ⟨su, ac, r, hu, ha, hp, hne, hadm, hcount⟩
    simp only [hv, if_true]
    unfold change_user_role
    simp only [hu, ha, hp]
    cases hc : env.commitOk
    · simpa [hc] using ⟨h, hwf⟩
    · simp only [hc, if_true, publish_swallowed]
      constructor
      · show 1 ≤ Store.adminCount _
        simp only [Store.adminCount]
        by_cases hr : r = UserRole.ADMIN
        · subst hr
          exact countP_admin_map_pos s.users uid su hu
        · by_cases hsuA : su.role = UserRole.ADMIN
          · have h2 := hcount hsuA hr
            have h3 := countP_admin_map_ge s.users uid r hwf
            simp only [Store.adminCount] at h2
            omega
          · have he := countP_admin_map_eq s.users uid r su hwf hu
              (by simpa using hsuA) (by simpa using hr)
            simp only [Store.adminCount] at h
            omega
      · show Store.WF _
        simp only [Store.WF]
        exact hwf.map _ (fun a b hab => by
          by_cases h1 : a.id = uid <;> by_cases h2 : b.id = uid <;>
            simpa [h1, h2] using hab)

/-- Claim C1: starting from any well-formed store with at least one
administrator, no sequence of requests through the route pathway reaches a
state without administrators. -/
theorem last_admin_invariant (s : Store) (ops : List RoleChangeOp)
    (hwf : s.WF) (h : 1 ≤ s.adminCount) :
    1 ≤ (runOps s ops).adminCount := by
  induction ops generalizing s with
  | nil => exact h
  | cons op ops ih =>
    have hstep := route_step_admin op.env s op.user_id op.new_role op.actor_id
      op.reason hwf h
    exact ih _ hstep.2 hstep.1

/-- Claim C4 (theorem): with exactly one administrator, a demotion request for that
administrator by themselves is rejected by the last-admin rule; with two or
more administrators the same request passes validation. -/
theorem validate_last_admin_check (s : Store) (a : User) (rv : RoleValue) (r : UserRole)
    (ha : s.getUser a.id = some a) (haR : a.role = UserRole.ADMIN)
    (hp : parse_role rv = some r) (hr : r ≠ UserRole.ADMIN) :
    (s.adminCount = 1 →
      validate_role_change s a.id rv a.id =
        (false, "Cannot change the role of the last administrator") ∧
      List.IsInfix "last administrator".data
        "Cannot change the role of the last administrator".data) ∧
    (2 ≤ s.adminCount →
      validate_role_change s a.id rv a.id = (true, "Role change is valid")) := by
  have hbase : ∀ c : Nat, s.adminCount = c →
      validate_role_change s a.id rv a.id =
        (if c ≤ 1 then (false, "Cannot change the role of the last administrator")
         else (true, "Role change is valid")) := by
    intro c hcount
    unfold validate_role_change
    simp only [ha, hp]
    rw [if_neg (fun hh => hr (haR.symm.trans hh).symm)]
    rw [if_neg (not_not_intro haR)]
    rw [if_pos ⟨haR, hr⟩]
    rw [hcount]
  constructor
  · intro h1
    refine ⟨?_, by decide⟩
    rw [hbase 1 h1]
    rfl
  · intro h2
    rw [hbase s.adminCount rfl]
    rw [if_neg (by omega)]

/-- Claim C5 (counterexample): the claim fails as stated: when the supplied actor does not
exist, the no-op request is rejected with the actor-not-found message, not
with one containing "already has the role". -/
theorem noop_rejection_any_actor_cex :
    validate_role_change
        { users := [{ id := 1, email := "u@x", role := UserRole.AUTHENTICATED }],
          history := [], nextId := 0, now := 0 }
        1 (RoleValue.str "AUTHENTICATED") 2 =
      (false, "User with ID 2 not found") ∧
    ¬ List.IsInfix "already has the role".data "User with ID 2 not found".data := by
  constructor
  · decide
  · decide

/-- Claim C5 (amended theorem): for an existing subject and an
existing actor of any role, requesting the subject's current role is
rejected with a message containing "already has the role". -/
theorem noop_change_rejected (s : Store) (uid aid : Nat) (su ac : User)
    (rv : RoleValue) (hu : s.getUser uid = some su) (ha : s.getUser aid = some ac)
    (hp : parse_role rv = some su.role) :
    (validate_role_change s uid rv aid).1 = false ∧
    List.IsInfix "already has the role".data
      (validate_role_change s uid rv aid).2.data := by
  have hkey : validate_role_change s uid rv aid =
      (false, "User already has the role " ++ rv.display) := by
    unfold validate_role_change
    simp only [hu, ha, hp]
    simp
  rw [hkey]
  refine ⟨rfl, ?_⟩
  have h1 : List.IsInfix "already has the role".data
      "User already has the role ".data := by decide
  rcases h1 with ⟨p, q, hpq⟩
  refine ⟨p, q ++ rv.display.data, ?_⟩
  rw [String.data_append]
  rw [← hpq]
  simp

/-- Claim C6 (counterexample): the claim fails as stated: the subject-not-found outcome and
the actor-not-found outcome carry the same status kind — here the two calls
even return identical error dictionaries — so the code exposes no
structured distinction between the two. -/
theorem not_found_kind_cex :
    (change_user_role { commitOk := true, notifyOk := true }
        { users := [{ id := 2, email := "b@x", role := UserRole.ADMIN }],
          history := [], nextId := 0, now := 0 }
        1 (RoleValue.str "MANAGER") 2 none).1 =
      (change_user_role { commitOk := true, notifyOk := true }
        { users := [{ id := 2, email := "b@x", role := UserRole.ADMIN }],
          history := [], nextId := 0, now := 0 }
        2 (RoleValue.str "MANAGER") 1 none).1 ∧
    ChangeOutcome.statusOf (change_user_role { commitOk := true, notifyOk := true }
        { users := [{ id := 2, email := "b@x", role := UserRole.ADMIN }],
          history := [], nextId := 0, now := 0 }
        1 (RoleValue.str "MANAGER") 2 none).1 = some "not_found" := by
  constructor
  · decide
  · decide

/-- Claim C6 (amended theorem): a missing subject yields the structured error
dictionary with status `not_found` and a message naming the missing id,
an outcome distinguishable from the opaque `None` of an operation failure,
from the `invalid_role` error, and from success. -/
theorem change_missing_subject_not_found (env : DbEnv) (s : Store) (uid : Nat)
    (rv : RoleValue) (aid : Nat) (reason : Option String)
    (h : s.getUser uid = none) :
    (change_user_role env s uid rv aid reason).1 =
      ChangeOutcome.error ("User with ID " ++ toString uid ++ " not found")
        "not_found" ∧
    (change_user_role env s uid rv aid reason).1 ≠ ChangeOutcome.failure ∧
    (∀ m, (change_user_role env s uid rv aid reason).1 ≠
      ChangeOutcome.error m "invalid_role") ∧
    (∀ d, (change_user_role env s uid rv aid reason).1 ≠
      ChangeOutcome.success d) := by
  have hk : (change_user_role env s uid rv aid reason).1 =
      ChangeOutcome.error ("User with ID " ++ toString uid ++ " not found")
        "not_found" := by
    unfold change_user_role
    simp only [h]
  refine ⟨hk, by simp [hk], ?_, by simp [hk]⟩
  intro m hcon
  rw [hk] at hcon
  injection hcon with h1 h2
  exact absurd h2 (by decide)

/-- Two orderings permitted by the unkeyed descending sort coincide when
the timestamps involved are pairwise distinct: a descending-sorted
permutation of a list with duplicate-free keys is unique. -/
theorem sorted_desc_perm_nodup_eq :
    ∀ (l1 l2 : List RoleChangeHistory), l1.Perm l2 →
    l1.Pairwise (fun a b => b.changed_at ≤ a.changed_at) →
    l2.Pairwise (fun a b => b.changed_at ≤ a.changed_at) →
    (l1.map (fun r => r.changed_at)).Nodup → l1 = l2
  | [], _, hp, _, _, _ => (hp.symm.eq_nil).symm
  | a :: t1, [], hp, _, _, _ => absurd hp.eq_nil (by simp)
  | a :: t1, b :: t2, hp, hs1, hs2, hnd => by
    have hab : a = b := by
      by_contra hne
      have hbmem : b ∈ a :: t1 := hp.symm.subset (List.mem_cons_self b t2)
      have hbt1 : b ∈ t1 := by
        rcases List.mem_cons.mp hbmem with h | h
        · exact absurd h.symm hne
        · exact h
      have hamem : a ∈ b :: t2 := hp.subset (List.mem_cons_self a t1)
      have hat2 : a ∈ t2 := by
        rcases List.mem_cons.mp hamem with h | h
        · exact absurd h hne
        · exact h
      have hk1 : b.changed_at ≤ a.changed_at :=
        (List.pairwise_cons.mp hs1).1 b hbt1
      have hk2 : a.changed_at ≤ b.changed_at :=
        (List.pairwise_cons.mp hs2).1 a hat2
      have hdup : a.changed_at ∈ t1.map (fun r => r.changed_at) := by
        rw [← Nat.le_antisymm hk1 hk2]
        exact List.mem_map_of_mem _ hbt1
      have hnd2 := hnd
      rw [List.map_cons, List.nodup_cons] at hnd2
      exact hnd2.1 hdup
    subst hab
    have ht : t1 = t2 :=
      sorted_desc_perm_nodup_eq t1 t2 hp.cons_inv
        (List.pairwise_cons.mp hs1).2 (List.pairwise_cons.mp hs2).2
        (by
          have hnd2 := hnd
          rw [List.map_cons, List.nodup_cons] at hnd2
          exact hnd2.2)
    rw [ht]

/-- Claim C7 (counterexample): with two records sharing a timestamp, both
the insertion order and its reverse are legitimate results of the unkeyed
`ORDER BY changed_at DESC`; under the reversing choice the full query does
not return ties in insertion order, and a page answered under one
legitimate choice is not a slice of a full query answered under another —
the code guarantees neither the tie-breaking nor one deterministic full
ordering that the claim asserts. -/
theorem history_tie_order_cex :
    IsOrderByChangedAtDesc
      (filteredHistory
        { users := [],
          history := [{ id := 0, user_id := 1, changed_by_id := 2,
                        previous_role := "AUTHENTICATED", new_role := "MANAGER",
                        changed_at := 7, reason := none },
                      { id := 1, user_id := 1, changed_by_id := 2,
                        previous_role := "MANAGER", new_role := "ADMIN",
                        changed_at := 7, reason := none }],
          nextId := 2, now := 7 } none)
      (filteredHistory
        { users := [],
          history := [{ id := 0, user_id := 1, changed_by_id := 2,
                        previous_role := "AUTHENTICATED", new_role := "MANAGER",
                        changed_at := 7, reason := none },
                      { id := 1, user_id := 1, changed_by_id := 2,
                        previous_role := "MANAGER", new_role := "ADMIN",
                        changed_at := 7, reason := none }],
          nextId := 2, now := 7 } none) ∧
    IsOrderByChangedAtDesc
      (filteredHistory
        { users := [],
          history := [{ id := 0, user_id := 1, changed_by_id := 2,
                        previous_role := "AUTHENTICATED", new_role := "MANAGER",
                        changed_at := 7, reason := none },
                      { id := 1, user_id := 1, changed_by_id := 2,
                        previous_role := "MANAGER", new_role := "ADMIN",
                        changed_at := 7, reason := none }],
          nextId := 2, now := 7 } none)
      ((filteredHistory
        { users := [],
          history := [{ id := 0, user_id := 1, changed_by_id := 2,
                        previous_role := "AUTHENTICATED", new_role := "MANAGER",
                        changed_at := 7, reason := none },
                      { id := 1, user_id := 1, changed_by_id := 2,
                        previous_role := "MANAGER", new_role := "ADMIN",
                        changed_at := 7, reason := none }],
          nextId := 2, now := 7 } none).reverse) ∧
    (get_role_change_history false (fun l => l.reverse)
        { users := [],
          history := [{ id := 0, user_id := 1, changed_by_id := 2,
                        previous_role := "AUTHENTICATED", new_role := "MANAGER",
                        changed_at := 7, reason := none },
                      { id := 1, user_id := 1, changed_by_id := 2,
                        previous_role := "MANAGER", new_role := "ADMIN",
                        changed_at := 7, reason := none }],
          nextId := 2, now := 7 } none 0 2).records.filter
        (fun r => r.changed_at == 7) ≠
      (filteredHistory
        { users := [],
          history := [{ id := 0, user_id := 1, changed_by_id := 2,
                        previous_role := "AUTHENTICATED", new_role := "MANAGER",
                        changed_at := 7, reason := none },
                      { id := 1, user_id := 1, changed_by_id := 2,
                        previous_role := "MANAGER", new_role := "ADMIN",
                        changed_at := 7, reason := none }],
          nextId := 2, now := 7 } none).filter (fun r => r.changed_at == 7) ∧
    (get_role_change_history false (fun l => l.reverse)
        { users := [],
          history := [{ id := 0, user_id := 1, changed_by_id := 2,
                        previous_role := "AUTHENTICATED", new_role := "MANAGER",
                        changed_at := 7, reason := none },
                      { id := 1, user_id := 1, changed_by_id := 2,
                        previous_role := "MANAGER", new_role := "ADMIN",
                        changed_at := 7, reason := none }],
          nextId := 2, now := 7 } none 0 1).records ≠
      ((get_role_change_history false (fun l => l)
        { users := [],
          history := [{ id := 0, user_id := 1, changed_by_id := 2,
                        previous_role := "AUTHENTICATED", new_role := "MANAGER",
                        changed_at := 7, reason := none },
                      { id := 1, user_id := 1, changed_by_id := 2,
                        previous_role := "MANAGER", new_role := "ADMIN",
                        changed_at := 7, reason := none }],
          nextId := 2, now := 7 } none 0 2).records.drop 0).take 1 := by
  refine ⟨by decide, by decide, by decide, by decide⟩

/-- Claim C7 (amended theorem): under any store-chosen ordering consistent
with the unkeyed `ORDER BY changed_at DESC`, the full history query is
sorted by timestamp descending and is a permutation of the filtered set;
each page is the contiguous slice, after ordering, of the ordering the
store chose for that query; the reported total is the full filtered count
regardless of the page window; and when the filtered timestamps are
pairwise distinct the consistent ordering is unique, so every consistent
choice — hence every separate query — returns the same page. -/
theorem history_ordered_paginated
    (dbSort : List RoleChangeHistory → List RoleChangeHistory) (s : Store)
    (uid? : Option Nat) (skip limit : Nat)
    (hdb : IsOrderByChangedAtDesc (filteredHistory s uid?)
      (dbSort (filteredHistory s uid?))) :
    (get_role_change_history false dbSort s uid? 0
        (filteredHistory s uid?).length).records.Pairwise
      (fun a b => b.changed_at ≤ a.changed_at) ∧
    (get_role_change_history false dbSort s uid? 0
        (filteredHistory s uid?).length).records.Perm (filteredHistory s uid?) ∧
    (get_role_change_history false dbSort s uid? skip limit).records =
      ((dbSort (filteredHistory s uid?)).drop skip).take limit ∧
    (get_role_change_history false dbSort s uid? skip limit).total =
      (filteredHistory s uid?).length ∧
    (∀ other : List RoleChangeHistory → List RoleChangeHistory,
      IsOrderByChangedAtDesc (filteredHistory s uid?)
        (other (filteredHistory s uid?)) →
      ((filteredHistory s uid?).map (fun r => r.changed_at)).Nodup →
      get_role_change_history false dbSort s uid? skip limit =
        get_role_change_history false other s uid? skip limit) := by
  have hlen : (dbSort (filteredHistory s uid?)).length =
      (filteredHistory s uid?).length := hdb.1.length_eq
  have hfull : (get_role_change_history false dbSort s uid? 0
      (filteredHistory s uid?).length).records =
      dbSort (filteredHistory s uid?) := by
    simp only [get_role_change_history, Bool.false_eq_true, if_false,
      List.drop_zero]
    exact List.take_of_length_le (le_of_eq hlen)
  refine ⟨?_, ?_, ?_, ?_, ?_⟩
  · rw [hfull]
    exact hdb.2
  · rw [hfull]
    exact hdb.1
  · simp only [get_role_change_history, Bool.false_eq_true, if_false]
  · simp only [get_role_change_history, Bool.false_eq_true, if_false]
  · intro other hother hnodup
    have hkeys : ((dbSort (filteredHistory s uid?)).map
        (fun r => r.changed_at)).Nodup :=
      ((hdb.1.map (fun r => r.changed_at)).nodup_iff).mpr hnodup
    have heq : dbSort (filteredHistory s uid?) =
        other (filteredHistory s uid?) :=
      sorted_desc_perm_nodup_eq _ _ (hdb.1.trans hother.1.symm) hdb.2
        hother.2 hkeys
    simp only [get_role_change_history, Bool.false_eq_true, if_false, heq]

/-- Witness for the hypotheses of `history_ordered_paginated`: a store
whose two records carry distinct timestamps, queried under the reversing
choice (there the unique consistent ordering) and compared with a second
consistent choice supplied as a constant function. -/
theorem history_ordered_paginated_witness :
    (get_role_change_history false (fun l => l.reverse)
        { users := [],
          history := [{ id := 0, user_id := 1, changed_by_id := 2,
                        previous_role := "AUTHENTICATED", new_role := "MANAGER",
                        changed_at := 5, reason := none },
                      { id := 1, user_id := 1, changed_by_id := 2,
                        previous_role := "MANAGER", new_role := "ADMIN",
                        changed_at := 9, reason := none }],
          nextId := 2, now := 9 } none 1 1).records =
      (((fun l : List RoleChangeHistory => l.reverse)
        (filteredHistory
          { users := [],
            history := [{ id := 0, user_id := 1, changed_by_id := 2,
                          previous_role := "AUTHENTICATED", new_role := "MANAGER",
                          changed_at := 5, reason := none },
                        { id := 1, user_id := 1, changed_by_id := 2,
                          previous_role := "MANAGER", new_role := "ADMIN",
                          changed_at := 9, reason := none }],
            nextId := 2, now := 9 } none)).drop 1).take 1 ∧
    get_role_change_history false (fun l => l.reverse)
        { users := [],
          history := [{ id := 0, user_id := 1, changed_by_id := 2,
                        previous_role := "AUTHENTICATED", new_role := "MANAGER",
                        changed_at := 5, reason := none },
                      { id := 1, user_id := 1, changed_by_id := 2,
                        previous_role := "MANAGER", new_role := "ADMIN",
                        changed_at := 9, reason := none }],
          nextId := 2, now := 9 } none 1 1 =
      get_role_change_history false
        (fun _ => [{ id := 1, user_id := 1, changed_by_id := 2,
                     previous_role := "MANAGER", new_role := "ADMIN",
                     changed_at := 9, reason := none },
                   { id := 0, user_id := 1, changed_by_id := 2,
                     previous_role := "AUTHENTICATED", new_role := "MANAGER",
                     changed_at := 5, reason := none }])
        { users := [],
          history := [{ id := 0, user_id := 1, changed_by_id := 2,
                        previous_role := "AUTHENTICATED", new_role := "MANAGER",
                        changed_at := 5, reason := none },
                      { id := 1, user_id := 1, changed_by_id := 2,
                        previous_role := "MANAGER", new_role := "ADMIN",
                        changed_at := 9, reason := none }],
          nextId := 2, now := 9 } none 1 1 :=
  ⟨(history_ordered_paginated (fun l => l.reverse)
      { users := [],
        history := [{ id := 0, user_id := 1, changed_by_id := 2,
                      previous_role := "AUTHENTICATED", new_role := "MANAGER",
                      changed_at := 5, reason := none },
                    { id := 1, user_id := 1, changed_by_id := 2,
                      previous_role := "MANAGER", new_role := "ADMIN",
                      changed_at := 9, reason := none }],
        nextId := 2, now := 9 } none 1 1 (by decide)).2.2.1,
   (history_ordered_paginated (fun l => l.reverse)
      { users := [],
        history := [{ id := 0, user_id := 1, changed_by_id := 2,
                      previous_role := "AUTHENTICATED", new_role := "MANAGER",
                      changed_at := 5, reason := none },
                    { id := 1, user_id := 1, changed_by_id := 2,
                      previous_role := "MANAGER", new_role := "ADMIN",
                      changed_at := 9, reason := none }],
        nextId := 2, now := 9 } none 1 1 (by decide)).2.2.2.2
     (fun _ => [{ id := 1, user_id := 1, changed_by_id := 2,
                  previous_role := "MANAGER", new_role := "ADMIN",
                  changed_at := 9, reason := none },
                { id := 0, user_id := 1, changed_by_id := 2,
                  previous_role := "AUTHENTICATED", new_role := "MANAGER",
                  changed_at := 5, reason := none }])
     (by decide) (by decide)⟩

/-- Witness for the hypotheses of `last_admin_invariant`: a two-user store
with one administrator, put through a blocked self-demotion, a promotion of
the second user to administrator, and a then-legal demotion of the first. -/
theorem last_admin_invariant_witness :
    1 ≤ (runOps
      { users := [{ id := 1, email := "a@x", role := UserRole.ADMIN },
                  { id := 2, email := "u@x", role := UserRole.AUTHENTICATED }],
        history := [], nextId := 0, now := 0 }
      [{ env := { commitOk := true, notifyOk := true }, user_id := 1,
         new_role := RoleValue.str "AUTHENTICATED", actor_id := 1, reason := none },
       { env := { commitOk := true, notifyOk := true }, user_id := 2,
         new_role := RoleValue.str "ADMIN", actor_id := 1, reason := none },
       { env := { commitOk := true, notifyOk := true }, user_id := 1,
         new_role := RoleValue.str "MANAGER", actor_id := 1,
         reason := some "rotation" }]).adminCount :=
  last_admin_invariant _ _ (by decide) (by decide)

/-- Witness for the hypotheses of `change_user_role_atomic`: a successful
change appends exactly the expected audit record, and a failed commit
returns the pre-state store. -/
theorem change_user_role_atomic_witness :
    (change_user_role { commitOk := true, notifyOk := true }
        { users := [{ id := 1, email := "a@x", role := UserRole.ADMIN },
                    { id := 2, email := "u@x", role := UserRole.AUTHENTICATED }],
          history := [], nextId := 0, now := 5 } 2 (RoleValue.str "MANAGER") 1
        (some "promotion")).2.history =
      [{ id := 0, user_id := 2, changed_by_id := 1,
         previous_role := "AUTHENTICATED", new_role := "MANAGER",
         changed_at := 5, reason := some "promotion" }] ∧
    (change_user_role { commitOk := false, notifyOk := true }
        { users := [{ id := 1, email := "a@x", role := UserRole.ADMIN },
                    { id := 2, email := "u@x", role := UserRole.AUTHENTICATED }],
          history := [], nextId := 0, now := 5 } 2 (RoleValue.str "MANAGER") 1
        (some "promotion")).2 =
      { users := [{ id := 1, email := "a@x", role := UserRole.ADMIN },
                  { id := 2, email := "u@x", role := UserRole.AUTHENTICATED }],
        history := [], nextId := 0, now := 5 } := by
  constructor
  · obtain ⟨su, r, hsu, hr, hh, -, -, -, -⟩ :=
      (change_user_role_atomic { commitOk := true, notifyOk := true }
        { users := [{ id := 1, email := "a@x", role := UserRole.ADMIN },
                    { id := 2, email := "u@x", role := UserRole.AUTHENTICATED }],
          history := [], nextId := 0, now := 5 } 2 (RoleValue.str "MANAGER") 1
        (some "promotion")).1
        { user_id := 2, previous_role := "AUTHENTICATED", new_role := "MANAGER",
          changed_at := 5, changed_by := "a@x", reason := some "promotion" } rfl
    have hsu2 : su = { id := 2, email := "u@x", role := UserRole.AUTHENTICATED } :=
      Option.some.inj (hsu.symm.trans (by decide))
    have hr2 : r = UserRole.MANAGER := Option.some.inj (hr.symm.trans (by decide))
    subst hsu2 hr2
    simpa using hh
  · exact (change_user_role_atomic { commitOk := false, notifyOk := true }
      { users := [{ id := 1, email := "a@x", role := UserRole.ADMIN },
                  { id := 2, email := "u@x", role := UserRole.AUTHENTICATED }],
        history := [], nextId := 0, now := 5 } 2 (RoleValue.str "MANAGER") 1
      (some "promotion")).2 rfl

/-- Witness for the hypotheses of `validate_last_admin_check`: the sole
administrator cannot demote themselves, and with a second administrator the
same request validates. -/
theorem validate_last_admin_check_witness :
    validate_role_change
        { users := [{ id := 1, email := "a@x", role := UserRole.ADMIN }],
          history := [], nextId := 0, now := 0 }
        1 (RoleValue.str "MANAGER") 1 =
      (false, "Cannot change the role of the last administrator") ∧
    validate_role_change
        { users := [{ id := 1, email := "a@x", role := UserRole.ADMIN },
                    { id := 2, email := "b@x", role := UserRole.ADMIN }],
          history := [], nextId := 0, now := 0 }
        1 (RoleValue.str "MANAGER") 1 =
      (true, "Role change is valid") :=
  ⟨((validate_last_admin_check
      { users := [{ id := 1, email := "a@x", role := UserRole.ADMIN }],
        history := [], nextId := 0, now := 0 }
      { id := 1, email := "a@x", role := UserRole.ADMIN }
      (RoleValue.str "MANAGER") UserRole.MANAGER (by decide) rfl rfl
      (by decide)).1 (by decide)).1,
   (validate_last_admin_check
      { users := [{ id := 1, email := "a@x", role := UserRole.ADMIN },
                  { id := 2, email := "b@x", role := UserRole.ADMIN }],
        history := [], nextId := 0, now := 0 }
      { id := 1, email := "a@x", role := UserRole.ADMIN }
      (RoleValue.str "MANAGER") UserRole.MANAGER (by decide) rfl rfl
      (by decide)).2 (by decide)⟩

/-- Witness for the hypotheses of `noop_change_rejected`: a non-admin actor
requesting the subject's current role still gets the no-op rejection. -/
theorem noop_change_rejected_witness :
    (validate_role_change
        { users := [{ id := 1, email := "u@x", role := UserRole.AUTHENTICATED },
                    { id := 2, email := "m@x", role := UserRole.MANAGER }],
          history := [], nextId := 0, now := 0 }
        1 (RoleValue.str "AUTHENTICATED") 2).1 = false ∧
    List.IsInfix "already has the role".data
      (validate_role_change
        { users := [{ id := 1, email := "u@x", role := UserRole.AUTHENTICATED },
                    { id := 2, email := "m@x", role := UserRole.MANAGER }],
          history := [], nextId := 0, now := 0 }
        1 (RoleValue.str "AUTHENTICATED") 2).2.data :=
  noop_change_rejected
    { users := [{ id := 1, email := "u@x", role := UserRole.AUTHENTICATED },
                { id := 2, email := "m@x", role := UserRole.MANAGER }],
      history := [], nextId := 0, now := 0 }
    1 2 { id := 1, email := "u@x", role := UserRole.AUTHENTICATED }
    { id := 2, email := "m@x", role := UserRole.MANAGER }
    (RoleValue.str "AUTHENTICATED") (by decide) (by decide) (by decide)

/-- Witness for the hypothesis of `change_missing_subject_not_found`: a
call on a store without user 7 yields the structured not-found error. -/
theorem change_missing_subject_not_found_witness :
    (change_user_role { commitOk := true, notifyOk := true }
        { users := [{ id := 2, email := "b@x", role := UserRole.ADMIN }],
          history := [], nextId := 0, now := 0 }
        7 (RoleValue.str "MANAGER") 2 none).1 =
      ChangeOutcome.error ("User with ID " ++ toString 7 ++ " not found")
        "not_found" :=
  (change_missing_subject_not_found { commitOk := true, notifyOk := true }
    { users := [{ id := 2, email := "b@x", role := UserRole.ADMIN }],
      history := [], nextId := 0, now := 0 }
    7 (RoleValue.str "MANAGER") 2 none (by decide)).1

end UserMgmt
